import Mathlib

/-
Verification development for the SQL2NL inference bridge
(`backend/flaskr/sql2text_bridge.py`).

The Python module is shallowly embedded below.  Tensor-library objects that the
bridge never inspects (encoder outputs, hidden states, masks, alignment maps,
raw batches, checkpoint weight blobs) are represented by one abstract type
parameter `α`; tensors whose integer contents the bridge does inspect
(decoder inputs, logits rows, emitted token ids) are lists of integers.
External callables (the file materializer, `torch.load`, batching helpers,
`encode`/`decode`, `get_metric`) are fields of an `Env` record, so theorems
quantify over every possible behaviour of those collaborators.  Python
exceptions are values of `PyErr` carrying the text `str(err)` would produce;
fallible calls return `Except PyErr`.  Repository modules referenced by the
bridge but not part of it (`flaskr.evaluation_result`, `Data.dataset`) are
modelled from the specification where noted.
-/

set_option autoImplicit false

/-- A raised Python exception; `msg` is what `str(err)` yields (possibly empty). -/
structure PyErr where
  msg : String
deriving DecidableEq

/-- Vocabulary: fixed `size`, `pad_idx`, `unk_idx`.  `objId` models Python
object identity (the value of `id(vocab)`); two references to the same
vocabulary instance agree on `objId`, while merely equal mappings need not. -/
structure Vocab where
  objId : Nat
  size : Nat
  pad_idx : Int
  unk_idx : Int
deriving DecidableEq

/-- The hyperparameter record stored under `checkpoint['args']`.  The float
`dropout` is carried as an opaque integer code; no claim computes with it. -/
structure Args where
  model : String
  data : String
  eval_batch_size : Nat
  down_embed_dim : Nat
  hid_size : Nat
  dropout : Int
  max_oov_num : Nat
  copy : Bool
  down_d_model : Nat
  down_d_ff : Nat
  down_head_num : Nat
  down_layer_num : Nat
  down_max_dist : Nat
  rel_share : Bool
  k_v_share : Bool
  absolute_pos : Bool
deriving DecidableEq

/-- A loaded checkpoint: the hyperparameter record (`checkpoint['args']`) and
the serialized weights (`checkpoint['model']`), opaque to the bridge. -/
structure Checkpoint (α : Type) where
  args : Args
  model : α
deriving DecidableEq

/-- The four model shapes `build_model` can construct; each constructor records
the exact argument list the corresponding Python constructor receives. -/
inductive Model where
  | biLSTM (down_embed_dim vocab_size hid_size : Nat) (pad_idx : Int)
      (dropout : Int) (max_oov_num : Nat) (copy : Bool)
  | relativeTransformer
      (down_embed_dim vocab_size down_d_model down_d_ff down_head_num
        down_layer_num hid_size : Nat) (dropout : Int) (pad_idx : Int)
      (down_max_dist max_oov_num : Nat) (copy rel_share k_v_share : Bool)
  | absoluteTransformer
      (down_embed_dim vocab_size down_d_model down_d_ff down_head_num
        down_layer_num hid_size : Nat) (dropout : Int) (pad_idx : Int)
      (max_oov_num : Nat) (copy : Bool) (pos : Bool)
  | treeLSTM (down_embed_dim vocab_size type_num hid_size : Nat)
      (dropout : Int) (pad_idx : Int) (max_oov_num : Nat) (copy : Bool)
deriving DecidableEq

/-- Architecture tag of a constructed model shape. -/
def modelTag : Model → String
  | Model.biLSTM _ _ _ _ _ _ _ => "BiLSTM"
  | Model.relativeTransformer _ _ _ _ _ _ _ _ _ _ _ _ _ _ => "Relative-Transformer"
  | Model.absoluteTransformer _ _ _ _ _ _ _ _ _ _ _ _ => "Transformer"
  | Model.treeLSTM _ _ _ _ _ _ _ _ => "TreeLSTM"

/-- Modelled from the spec: `flaskr.evaluation_result.EvaluationResult` is not
under `src/`; per the spec it is the request-scoped output record with
architecture name, original input text, whether scoring applies, generated
text, score, success flag and failure reason, with failure as the default
outcome (`success` is only set on a completed pipeline). -/
structure EvaluationResult where
  modelName : String := ""
  original : String := ""
  hasScore : Bool := false
  result : String := ""
  score : Int := 0
  success : Bool := false
  failedReason : String := ""
deriving DecidableEq

/-- The fields of a (seq or tree) dataset that the bridge reads: the bound
vocabulary and the three collections handed to `get_metric`. -/
structure Dataset (α : Type) where
  vocab : Vocab
  origin_questions : α
  val_map_list : α
  idx2tok_map_list : α
deriving DecidableEq

/-- Tuple produced by `get_seq_batch_data`:
`nodes, questions, rela_dist, copy_mask, src2trg_map`. -/
structure SeqBatch (α : Type) where
  nodes : α
  questions : List (List Int)
  rela_dist : α
  copy_mask : α
  src2trg_map : α

/-- Tuple produced by `get_tree_batch_data`: `nodes, types, node_order,
adjacency_list, edge_order, questions, copy_mask, src2trg_map`. -/
structure TreeBatch (α : Type) where
  nodes : α
  types : α
  node_order : α
  adjacency_list : α
  edge_order : α
  questions : List (List Int)
  copy_mask : α
  src2trg_map : α

/-- State threaded through the autoregressive decode loop: the current input
tensor (one id per batch element), the hidden state, and the list of emitted
`(batch, 1)` tensors accumulated in `preds`. -/
structure DecState (α : Type) where
  inputs : List Int
  hidden : α
  preds : List (List Int)
deriving DecidableEq

/-- External collaborators of the bridge.  Each field stands for a callable
the bridge invokes but does not define; fallible ones return `Except PyErr`.
`build_input_sql_json` is modelled from the spec (`flaskr.file_utils` is not
under `src/`): the materializer returns a path, or the empty string on
failure, and signals failure only that way. -/
structure Env (α : Type) where
  build_input_sql_json : String → Option String → String → String → String
  torch_load : String → Except PyErr (Checkpoint α)
  readSeqExamples : List String → String → Except PyErr α
  readTreeExamples : List String → String → Except PyErr α
  buildVocabSeq : α → Vocab
  buildVocabTree : α → Vocab
  originQuestions : α → α
  valMapList : α → α
  idx2tokMapList : α → α
  dataLoader : Dataset α → Nat → List α
  get_seq_batch_data : α → Int → Nat → Int → Nat → Except PyErr (SeqBatch α × α)
  get_tree_batch_data : α → Except PyErr (TreeBatch α × α)
  encodeRel : Model → α → α → α × α × α
  encodeSeq : Model → α → α × α × α
  encodeTree : Model → α → α → α → α → α → α × α × α
  decode : Model → List Int → α → α → α → α → α → List (List Int) × α
  toDevice : Model → Except PyErr Model
  load_state_dict : Model → α → Except PyErr Model
  get_metric : List (List Int) → α → Vocab → Bool → α → α →
    Except PyErr (α × List Int × List String × α)

/-- The module's process-wide mutable globals: `checkpoint_dict`,
`train_seq_dataset`, `train_tree_dataset`. -/
structure GState (α : Type) where
  checkpoint_dict : List (String × Checkpoint α)
  train_seq_dataset : Option (Dataset α)
  train_tree_dataset : Option (Dataset α)
deriving DecidableEq

/-- `MAX_DECODE = 500`. -/
def MAX_DECODE : Nat := 500

/-- `TRAIN_TABLE_FILE_PATH`. -/
def TRAIN_TABLE_FILE_PATH : String := "Dataset/spider/tables.json"

/-- `SUPPORTED_MODELS`. -/
def SUPPORTED_MODELS : List String :=
  ["BiLSTM", "Relative-Transformer", "Transformer", "TreeLSTM"]

/-- `TRAIN_DATA_FILES`. -/
def TRAIN_DATA_FILES : List String :=
  ["./Dataset/spider_composed_tree2seq/train.json"]

/-- Modelled from the spec: node-type count `TYPE_NUM` from `Utils.const`,
which is not under `src/`; its numeric value is irrelevant to every claim. -/
def TYPE_NUM : Nat := 0

/-- Python `str()` of a list of strings, as an f-string renders
`SUPPORTED_MODELS`: elements in single quotes, separated by comma-space. -/
def pyReprStrList (l : List String) : String :=
  "[" ++ String.intercalate (", ") (l.map (fun s => "'" ++ s ++ "'")) ++ "]"

/-- Lookup in the `checkpoint_dict` dictionary (keys are unique). -/
def dictLookup {β : Type} : List (String × β) → String → Option β
  | [], _ => none
  | (k, v) :: rest, key => if key = k then some v else dictLookup rest key

/-- `torch.argmax` over the last dimension of one logits row: the index of the
maximum entry (first occurrence on ties), as a token id. -/
def argmaxRow : List Int → Int
  | [] => 0
  | x :: xs =>
    Int.ofNat
      (((x :: xs).enum.foldl (fun best p => if best.2 < p.2 then p else best)
        (0, x)).1)

/-- `questions[:, 0].view(-1, 1)`: the first column of the gold-question
tensor, one start-marker id per batch element. -/
def firstColumn (questions : List (List Int)) : List Int :=
  questions.map (fun row => row.headD 0)

/-- `torch.cat(preds, dim=1).tolist()`: stitch the per-step `(batch, 1)`
tensors into one id sequence per example. -/
def catDim1 (preds : List (List Int)) : List (List Int) :=
  match preds with
  | [] => []
  | c :: cs =>
    (List.range c.length).map (fun i => (c :: cs).map (fun col => col.getD i 0))

/-- `get_checkpoint_path`: checkpoint file for a model tag, `''` if
unsupported. -/
def get_checkpoint_path (model : String) : String :=
  if model = "BiLSTM" then ("Checkpoints/BiLSTM/spider/bilstm_big.pt")
  else if model = "Relative-Transformer" then
    ("Checkpoints/RelativeTransformer/spider/rel_transformer_big.pt")
  else if model = "Transformer" then
    ("Checkpoints/Transformer/spider/transformer_big.pt")
  else if model = "TreeLSTM" then ("Checkpoints/TreeLSTM/spider/tree2seq_big.pt")
  else ("")

/-- Modelled from the spec: `Data.dataset.SeqDataset` is not under `src/`.
Per the spec the constructor builds a dataset from the given files and, when a
`vocab` argument is supplied, binds exactly that vocabulary object unchanged;
only when none is supplied does it build its own from the corpus.  Reading a
malformed or absent record raises. -/
def SeqDataset.make {α : Type} (env : Env α) (files : List String)
    (tablePath : String) (vocab : Option Vocab) : Except PyErr (Dataset α) :=
  match env.readSeqExamples files tablePath with
  | Except.error e => Except.error e
  | Except.ok raw =>
    Except.ok
      { vocab := vocab.getD (env.buildVocabSeq raw),
        origin_questions := env.originQuestions raw,
        val_map_list := env.valMapList raw,
        idx2tok_map_list := env.idx2tokMapList raw }

/-- Modelled from the spec: `Data.dataset.TreeDataset` is not under `src/`;
same contract as `SeqDataset.make` for the tree variant. -/
def TreeDataset.make {α : Type} (env : Env α) (files : List String)
    (tablePath : String) (vocab : Option Vocab) : Except PyErr (Dataset α) :=
  match env.readTreeExamples files tablePath with
  | Except.error e => Except.error e
  | Except.ok raw =>
    Except.ok
      { vocab := vocab.getD (env.buildVocabTree raw),
        origin_questions := env.originQuestions raw,
        val_map_list := env.valMapList raw,
        idx2tok_map_list := env.idx2tokMapList raw }

/-- `is_ready`: `len(checkpoint_dict) != 0 and train_seq_dataset != None and
train_tree_dataset != None`. -/
def is_ready {α : Type} (st : GState α) : Bool :=
  decide (st.checkpoint_dict.length ≠ 0) &&
    st.train_seq_dataset.isSome && st.train_tree_dataset.isSome

/-- The loading loop of `setup_checkpoints`: each `torch.load` result is
stored into the global dict in turn; an exception propagates (there is no
handler), leaving the partially filled dict behind. -/
def loadLoop {α : Type} (env : Env α) (st : GState α) :
    List String → GState α × Option PyErr
  | [] => (st, none)
  | m :: rest =>
    match env.torch_load (get_checkpoint_path m) with
    | Except.error e => (st, some e)
    | Except.ok ck =>
      loadLoop env
        { st with checkpoint_dict := st.checkpoint_dict ++ [(m, ck)] } rest

/-- `setup_checkpoints`: load every supported model's checkpoint in order.
Returns the resulting global state and the escaped exception, if any. -/
def setup_checkpoints {α : Type} (env : Env α) (st : GState α) :
    GState α × Option PyErr :=
  loadLoop env st SUPPORTED_MODELS

/-- `setup_models`: lazily build the two cached training datasets (an
exception from a constructor propagates). -/
def setup_models {α : Type} (env : Env α) (st : GState α) :
    Except PyErr (GState α) :=
  match
    (match st.train_seq_dataset with
     | none =>
       match SeqDataset.make env TRAIN_DATA_FILES TRAIN_TABLE_FILE_PATH none with
       | Except.error e => Except.error e
       | Except.ok d => Except.ok { st with train_seq_dataset := some d }
     | some _ => Except.ok st) with
  | Except.error e => Except.error e
  | Except.ok st2 =>
    match st2.train_tree_dataset with
    | none =>
      match TreeDataset.make env TRAIN_DATA_FILES TRAIN_TABLE_FILE_PATH none with
      | Except.error e => Except.error e
      | Except.ok d => Except.ok { st2 with train_tree_dataset := some d }
    | some _ => Except.ok st2

/-- `get_train_dataset`: the cached training dataset for a model's family
(possibly `None`), `None` for an unsupported tag. -/
def get_train_dataset {α : Type} (st : GState α) (model : String) :
    Option (Dataset α) :=
  if model ∈ ["Relative-Transformer", "Transformer", "BiLSTM"] then
    st.train_seq_dataset
  else if model = "TreeLSTM" then st.train_tree_dataset
  else none

/-- Python attribute access `train_set.vocab`: on `None` it raises
`AttributeError` with this exact message. -/
def vocabAttr {α : Type} : Option (Dataset α) → Except PyErr Vocab
  | none => Except.error { msg := "'NoneType' object has no attribute 'vocab'" }
  | some d => Except.ok d.vocab

/-- `build_dataset`: builds the per-request evaluation dataset, binding the
cached training dataset's vocabulary; `none` when the tag is unsupported. -/
def build_dataset {α : Type} (env : Env α) (st : GState α) (model : String)
    (user_request_data_file : String) : Except PyErr (Option (Dataset α)) :=
  if model ∈ ["Relative-Transformer", "Transformer", "BiLSTM"] then
    match vocabAttr (get_train_dataset st model) with
    | Except.error e => Except.error e
    | Except.ok v =>
      match SeqDataset.make env [user_request_data_file] TRAIN_TABLE_FILE_PATH
          (some v) with
      | Except.error e => Except.error e
      | Except.ok test_set => Except.ok (some test_set)
  else if model = "TreeLSTM" then
    match vocabAttr (get_train_dataset st model) with
    | Except.error e => Except.error e
    | Except.ok v =>
      match TreeDataset.make env [user_request_data_file] TRAIN_TABLE_FILE_PATH
          (some v) with
      | Except.error e => Except.error e
      | Except.ok test_set => Except.ok (some test_set)
  else Except.ok none

/-- `build_model`: `None` when `args` or `vocab` is absent or the tag is
unsupported; otherwise exactly the constructor call of the matching shape. -/
def build_model (args : Option Args) (vocab : Option Vocab) : Option Model :=
  match args, vocab with
  | none, _ => none
  | _, none => none
  | some args, some vocab =>
    if args.model = "BiLSTM" then
      some (Model.biLSTM args.down_embed_dim vocab.size args.hid_size
        vocab.pad_idx args.dropout args.max_oov_num args.copy)
    else if args.model = "Relative-Transformer" then
      some (Model.relativeTransformer args.down_embed_dim vocab.size
        args.down_d_model args.down_d_ff args.down_head_num args.down_layer_num
        args.hid_size args.dropout vocab.pad_idx args.down_max_dist
        args.max_oov_num args.copy args.rel_share args.k_v_share)
    else if args.model = "Transformer" then
      some (Model.absoluteTransformer args.down_embed_dim vocab.size
        args.down_d_model args.down_d_ff args.down_head_num args.down_layer_num
        args.hid_size args.dropout vocab.pad_idx args.max_oov_num args.copy
        args.absolute_pos)
    else if args.model = "TreeLSTM" then
      some (Model.treeLSTM args.down_embed_dim vocab.size TYPE_NUM
        args.hid_size args.dropout vocab.pad_idx args.max_oov_num args.copy)
    else none

/-- One iteration of the decode loop.  Note the aliasing in the source:
`preds.append(next_input)` appends a reference to the tensor, and the
subsequent in-place masked assignment
`next_input[next_input >= vocab.size] = vocab.unk_idx` mutates that same
tensor, so the row recorded in `preds` is the clamped row, identical to the
row fed forward as `inputs`. -/
def decodeStep {α : Type} (env : Env α) (model : Model) (vocab : Vocab)
    (nodes mask copy_mask src2trg_map : α) (st : DecState α) : DecState α :=
  let out := env.decode model st.inputs nodes st.hidden mask copy_mask src2trg_map
  let next_input := out.1.map argmaxRow
  let clamped :=
    next_input.map (fun t => if (vocab.size : Int) ≤ t then vocab.unk_idx else t)
  { inputs := clamped, hidden := out.2, preds := st.preds ++ [clamped] }

/-- `for _ in range(MAX_DECODE)`: the decode loop, starting from the
first-column start markers with an empty `preds` list. -/
def decodeLoop {α : Type} (env : Env α) (model : Model) (vocab : Vocab)
    (nodes mask copy_mask src2trg_map : α) (hidden : α) (inputs0 : List Int) :
    DecState α :=
  (List.range MAX_DECODE).foldl
    (fun st _ => decodeStep env model vocab nodes mask copy_mask src2trg_map st)
    { inputs := inputs0, hidden := hidden, preds := [] }

/-- The body of `evaluate`'s batch loop for one batch: `some` carries the
`preds.tolist()` contribution, `none` is the early `return "", 0` of the
unreachable unsupported-name arm. -/
def evalBatch {α : Type} (env : Env α) (model : Model) (vocab : Vocab)
    (args : Args) (model_name : String) (batch_data : α) :
    Except PyErr (Option (List (List Int))) :=
  if model_name ∈ ["Relative-Transformer", "Transformer", "BiLSTM"] then
    match env.get_seq_batch_data batch_data vocab.pad_idx vocab.size
        vocab.unk_idx args.down_max_dist with
    | Except.error e => Except.error e
    | Except.ok bp =>
      let b := bp.1
      let enc :=
        if model_name = "Relative-Transformer" then
          env.encodeRel model b.nodes b.rela_dist
        else env.encodeSeq model b.nodes
      let st := decodeLoop env model vocab enc.1 enc.2.2 b.copy_mask
        b.src2trg_map enc.2.1 (firstColumn b.questions)
      Except.ok (some (catDim1 st.preds))
  else if model_name = "TreeLSTM" then
    match env.get_tree_batch_data batch_data with
    | Except.error e => Except.error e
    | Except.ok bp =>
      let b := bp.1
      let enc := env.encodeTree model b.nodes b.types b.node_order
        b.adjacency_list b.edge_order
      let st := decodeLoop env model vocab enc.1 enc.2.2 b.copy_mask
        b.src2trg_map enc.2.1 (firstColumn b.questions)
      Except.ok (some (catDim1 st.preds))
  else Except.ok none

/-- `evaluate`'s loop over the dataloader, accumulating `all_predictions`. -/
def evalBatches {α : Type} (env : Env α) (model : Model) (vocab : Vocab)
    (args : Args) (model_name : String) :
    List α → Except PyErr (Option (List (List Int)))
  | [] => Except.ok (some [])
  | b :: rest =>
    match evalBatch env model vocab args model_name b with
    | Except.error e => Except.error e
    | Except.ok none => Except.ok none
    | Except.ok (some p) =>
      match evalBatches env model vocab args model_name rest with
      | Except.error e => Except.error e
      | Except.ok none => Except.ok none
      | Except.ok (some ps) => Except.ok (some (p ++ ps))

/-- `evaluate`: run the decode loop over every batch, then detokenize and
score through `get_metric`. -/
def evaluate {α : Type} (env : Env α) (model : Model) (dataset : Dataset α)
    (vocab : Vocab) (args : Args) (model_name : String) :
    Except PyErr (String × Int) :=
  if model_name ∉ SUPPORTED_MODELS then Except.ok (("", 0))
  else
    match evalBatches env model vocab args model_name
        (env.dataLoader dataset args.eval_batch_size) with
    | Except.error e => Except.error e
    | Except.ok none => Except.ok (("", 0))
    | Except.ok (some all_predictions) =>
      match env.get_metric all_predictions dataset.origin_questions vocab true
          dataset.val_map_list dataset.idx2tok_map_list with
      | Except.error e => Except.error e
      | Except.ok r =>
        Except.ok ((r.2.2.1.headD (""), r.2.1.headD 0))

/-- The two default-argument assignments `checkpoint_args.data = "spider"`
and `checkpoint_args.eval_batch_size = 1` performed on the checkpoint's
hyperparameter record before use. -/
def patchArgs (a : Args) : Args := { a with data := "spider", eval_batch_size := 1 }

/-- The `try:` body of `run_sql2text`; an `Except.error` is a Python
exception escaping to the `except` clause.  Note the rebinding in the source:
`model = build_model(...)` overwrites the local that held the architecture
tag, so the subsequent f-string in the failure branch formats `None`. -/
def run_sql2text_inner {α : Type} (env : Env α) (st : GState α) (model : String)
    (user_input_json_path : String) (result : EvaluationResult) :
    Except PyErr EvaluationResult :=
  match dictLookup st.checkpoint_dict model with
  | none =>
    Except.ok
      { result with
        failedReason :=
          "checkpoint for model " ++ model ++ " is not loaded yet" }
  | some checkpoint =>
    match build_dataset env st model user_input_json_path with
    | Except.error e => Except.error e
    | Except.ok none =>
      Except.ok
        { result with
          failedReason := "build dataset for " ++ model ++ " failed" }
    | Except.ok (some test_dataset) =>
      match build_model (some (patchArgs checkpoint.args))
          (some test_dataset.vocab) with
      | none =>
        Except.ok
          { result with failedReason := "build model for None failed" }
      | some m =>
        match env.toDevice m with
        | Except.error e => Except.error e
        | Except.ok m2 =>
          match env.load_state_dict m2 checkpoint.model with
          | Except.error e => Except.error e
          | Except.ok m3 =>
            match evaluate env m3 test_dataset test_dataset.vocab
                (patchArgs checkpoint.args) (patchArgs checkpoint.args).model with
            | Except.error e => Except.error e
            | Except.ok ps =>
              Except.ok
                { result with
                  result := ps.1, score := ps.2, success := true }

/-- `run_sql2text`: the `try`/`except` wrapper — any exception from the body
is converted into `result.failedReason = str(err)` on the result as it stood
at entry (no result field is mutated before a raising call). -/
def run_sql2text {α : Type} (env : Env α) (st : GState α) (model : String)
    (user_input_json_path : String) (result : EvaluationResult) :
    EvaluationResult :=
  match run_sql2text_inner env st model user_input_json_path result with
  | Except.ok r => r
  | Except.error err => { result with failedReason := err.msg }

/-- The result record as `predict` initializes it before any branching:
`modelName`, `original` and `hasScore` are set, everything else keeps its
constructor default. -/
def entryResult (model : String) (gold_nl_array : Option String)
    (input_sql : String) : EvaluationResult :=
  { modelName := model, original := input_sql,
    hasScore :=
      decide (gold_nl_array ≠ none) && decide (gold_nl_array ≠ some ("")) }

/-- `predict`: the orchestrator boundary. -/
def predict {α : Type} (env : Env α) (st : GState α) (model : String)
    (db_id : String) (gold_nl_array : Option String) (input_sql : String)
    (input_identifier : String) : EvaluationResult :=
  let result := entryResult model gold_nl_array input_sql
  if model ∉ SUPPORTED_MODELS then
    { result with
      failedReason :=
        "model '" ++ model ++ "' is not in supported models " ++
          pyReprStrList SUPPORTED_MODELS ++ "!" }
  else
    let input_identifier := input_identifier ++ "@" ++ model
    let jsonTargetPath :=
      env.build_input_sql_json db_id gold_nl_array input_sql input_identifier
    if jsonTargetPath = "" then
      { result with
        failedReason :=
          "build json file for model '" ++ model ++ "' input_sql '" ++
            input_sql ++ "' failed!" }
    else run_sql2text env st model jsonTargetPath result

/-- `needle` occurs as a contiguous substring of `hay`. -/
def strOccurs (needle hay : String) : Prop :=
  ∃ s t : String, hay = s ++ needle ++ t

/-- Concrete vocabulary for evaluation fixtures: `size = 5`, `unk_idx = 1`. -/
def vocabC : Vocab := { objId := 7, size := 5, pad_idx := 0, unk_idx := 1 }

/-- Concrete tree-family training vocabulary. -/
def vocabTreeC : Vocab := { objId := 8, size := 6, pad_idx := 0, unk_idx := 1 }

/-- The vocabulary a dataset constructor would build if none were supplied. -/
def vocabFresh : Vocab := { objId := 99, size := 3, pad_idx := 0, unk_idx := 2 }

/-- Concrete cached seq-family training dataset. -/
def dsTrainC : Dataset Unit :=
  { vocab := vocabC, origin_questions := (), val_map_list := (),
    idx2tok_map_list := () }

/-- Concrete cached tree-family training dataset. -/
def dsTreeC : Dataset Unit :=
  { vocab := vocabTreeC, origin_questions := (), val_map_list := (),
    idx2tok_map_list := () }

/-- Concrete hyperparameters tagged `BiLSTM`. -/
def argsC : Args :=
  { model := "BiLSTM", data := "d", eval_batch_size := 2, down_embed_dim := 3,
    hid_size := 4, dropout := 0, max_oov_num := 9, copy := true,
    down_d_model := 1, down_d_ff := 1, down_head_num := 1, down_layer_num := 1,
    down_max_dist := 1, rel_share := false, k_v_share := false,
    absolute_pos := true }

/-- Concrete checkpoint for `BiLSTM`. -/
def ckC : Checkpoint Unit := { args := argsC, model := () }

/-- Hyperparameters whose stored tag is unsupported. -/
def argsBadTag : Args := { argsC with model := "LSTM2" }

/-- A checkpoint whose stored hyperparameters carry an unsupported tag. -/
def ckBadTag : Checkpoint Unit := { args := argsBadTag, model := () }

/-- A concrete environment: every collaborator succeeds; `decode` always
returns the logits row `[0, 0, 0, 0, 0, 0, 0, 9]` (argmax id 7, out of range
for `vocabC`); `torch.load` succeeds only for the `BiLSTM` checkpoint path. -/
def envU : Env Unit :=
  { build_input_sql_json := fun _ _ _ _ => "req.json",
    torch_load := fun p =>
      if p = "Checkpoints/BiLSTM/spider/bilstm_big.pt" then Except.ok ckC
      else Except.error { msg := "FileNotFoundError" },
    readSeqExamples := fun _ _ => Except.ok (),
    readTreeExamples := fun _ _ => Except.ok (),
    buildVocabSeq := fun _ => vocabFresh,
    buildVocabTree := fun _ => vocabFresh,
    originQuestions := fun _ => (),
    valMapList := fun _ => (),
    idx2tokMapList := fun _ => (),
    dataLoader := fun _ _ => [()],
    get_seq_batch_data := fun _ _ _ _ _ =>
      Except.ok
        ({ nodes := (), questions := [[2]], rela_dist := (), copy_mask := (),
           src2trg_map := () }, ()),
    get_tree_batch_data := fun _ =>
      Except.ok
        ({ nodes := (), types := (), node_order := (), adjacency_list := (),
           edge_order := (), questions := [[2]], copy_mask := (),
           src2trg_map := () }, ()),
    encodeRel := fun _ _ _ => ((), (), ()),
    encodeSeq := fun _ _ => ((), (), ()),
    encodeTree := fun _ _ _ _ _ _ => ((), (), ()),
    decode := fun _ _ _ _ _ _ _ => ([[0, 0, 0, 0, 0, 0, 0, 9]], ()),
    toDevice := fun m => Except.ok m,
    load_state_dict := fun m _ => Except.ok m,
    get_metric := fun _ _ _ _ _ _ => Except.ok ((), [3], ["hello"], ()) }

/-- Like `envU`, but moving the model to the device raises an exception whose
`str()` is empty (as `raise RuntimeError()` would produce). -/
def envEmptyErr : Env Unit :=
  { envU with toDevice := fun _ => Except.error { msg := "" } }

/-- Global state with the `BiLSTM` checkpoint loaded and both training
datasets cached. -/
def stC : GState Unit :=
  { checkpoint_dict := [("BiLSTM", ckC)], train_seq_dataset := some dsTrainC,
    train_tree_dataset := some dsTreeC }

/-- Global state whose `BiLSTM` checkpoint stores an unsupported tag in its
hyperparameters, so `build_model` fails. -/
def stBadTag : GState Unit :=
  { checkpoint_dict := [("BiLSTM", ckBadTag)],
    train_seq_dataset := some dsTrainC, train_tree_dataset := some dsTreeC }

/-- Startup state: both training datasets cached, no checkpoint loaded yet. -/
def stInit : GState Unit :=
  { checkpoint_dict := [], train_seq_dataset := some dsTrainC,
    train_tree_dataset := some dsTreeC }

/-- Decode-loop state before the first iteration of the concrete run. -/
def stDec0 : DecState Unit := { inputs := [2], hidden := (), preds := [] }

/-- A concrete constructed model shape. -/
def modelC : Model := Model.biLSTM 3 5 4 0 0 9 true

/-- The evaluation dataset `build_dataset envU stC "BiLSTM"` produces. -/
def dsEvalC : Dataset Unit :=
  { vocab := vocabC, origin_questions := (), val_map_list := (),
    idx2tok_map_list := () }

/-- If the left part of a concatenation is non-empty, so is the whole. -/
theorem str_left_append_ne_empty (a b : String) (ha : a ≠ "") :
    (a ++ b) ≠ "" := by
  intro h
  apply ha
  have hd : a.data ++ b.data = ([] : List Char) := by
    have := congrArg String.data h
    rwa [String.data_append] at this
  exact String.ext (List.append_eq_nil.mp hd).1

/-- A substring of the right part is a substring of the whole. -/
theorem strOccurs_append_left (n a b : String) (h : strOccurs n b) :
    strOccurs n (a ++ b) := by
  obtain ⟨s, t, rfl⟩ := h
  exact ⟨a ++ s, t, by simp [String.append_assoc]⟩

/-- A substring of the left part is a substring of the whole. -/
theorem strOccurs_append_right (n a b : String) (h : strOccurs n a) :
    strOccurs n (a ++ b) := by
  obtain ⟨s, t, rfl⟩ := h
  exact ⟨s, t ++ b, by simp [String.append_assoc]⟩

/-- Substring occurrence is transitive. -/
theorem strOccurs_trans (n b c : String) (h1 : strOccurs n b)
    (h2 : strOccurs b c) : strOccurs n c := by
  obtain ⟨s1, t1, rfl⟩ := h1
  obtain ⟨s2, t2, rfl⟩ := h2
  exact ⟨s2 ++ s1, t1 ++ t2, by simp [String.append_assoc]⟩

/-- Each decode step appends exactly one emitted `(batch, 1)` tensor. -/
theorem decodeStep_preds_length {α : Type} (env : Env α) (model : Model)
    (vocab : Vocab) (nodes mask copy_mask src2trg_map : α) (st : DecState α) :
    (decodeStep env model vocab nodes mask copy_mask src2trg_map st).preds.length
      = st.preds.length + 1 := by
  simp [decodeStep]

/-- Folding the decode step over any index list grows `preds` by its length. -/
theorem foldl_decodeStep_length {α : Type} (env : Env α) (model : Model)
    (vocab : Vocab) (nodes mask copy_mask src2trg_map : α) :
    ∀ (l : List Nat) (st : DecState α),
      ((l.foldl
        (fun s _ => decodeStep env model vocab nodes mask copy_mask src2trg_map s)
        st).preds.length) = st.preds.length + l.length := by
  intro l
  induction l with
  | nil => intro st; simp
  | cons a t ih =>
    intro st
    rw [List.foldl_cons, ih, decodeStep_preds_length, List.length_cons]
    omega

/-- Every example row produced by `torch.cat(..., dim=1).tolist()` has one
entry per recorded step. -/
theorem catDim1_mem_length (p : List (List Int)) (row : List Int)
    (h : row ∈ catDim1 p) : row.length = p.length := by
  cases p with
  | nil => simp [catDim1] at h
  | cons c cs =>
    simp only [catDim1, List.mem_map] at h
    obtain ⟨i, -, rfl⟩ := h
    simp

/-- C1: in every decode step the row fed forward as the next input IS the row
recorded in `preds` (tensor aliasing: the in-place masked assignment mutates
the tensor already appended).  Concretely, with `vocabC.size = 5` and
`vocabC.unk_idx = 1`, a step whose argmax selects the out-of-range id 7 feeds
`[1]` forward — as the claim states — but also records `[1]`, not the
original id 7 the claim says is retained. -/
theorem decode_step_records_clamped_id :
    (∀ {α : Type} (env : Env α) (model : Model) (vocab : Vocab)
      (nodes mask copy_mask src2trg_map : α) (st : DecState α),
      (decodeStep env model vocab nodes mask copy_mask src2trg_map st).preds
        = st.preds ++
            [(decodeStep env model vocab nodes mask copy_mask src2trg_map
              st).inputs]) ∧
    argmaxRow [0, 0, 0, 0, 0, 0, 0, 9] = 7 ∧
    vocabC.size = 5 ∧ vocabC.unk_idx = 1 ∧
    (decodeStep envU modelC vocabC () () () () stDec0).inputs = [1] ∧
    (decodeStep envU modelC vocabC () () () () stDec0).preds = [[1]] := by
  refine ⟨?_, by decide, by decide, by decide, by decide, by decide⟩
  intro α env model vocab nodes mask copy_mask src2trg_map st
  simp [decodeStep]

/-- C3: the decode loop always runs exactly `MAX_DECODE = 500` iterations,
each appending exactly one emitted `(batch, 1)` position, so after
`torch.cat` every example row carries exactly 500 raw positions — for every
possible model behaviour, with no early stop. -/
theorem decode_loop_emits_exactly_500 :
    ∀ {α : Type} (env : Env α) (model : Model) (vocab : Vocab)
      (nodes mask copy_mask src2trg_map hidden : α) (inputs0 : List Int),
      MAX_DECODE = 500 ∧
      (∀ st : DecState α,
        (decodeStep env model vocab nodes mask copy_mask src2trg_map
          st).preds.length = st.preds.length + 1) ∧
      (decodeLoop env model vocab nodes mask copy_mask src2trg_map hidden
        inputs0).preds.length = MAX_DECODE ∧
      ((catDim1 (decodeLoop env model vocab nodes mask copy_mask src2trg_map
        hidden inputs0).preds).all (fun row => row.length == MAX_DECODE))
        = true := by
  intro α env model vocab nodes mask copy_mask src2trg_map hidden inputs0
  have hlen : (decodeLoop env model vocab nodes mask copy_mask src2trg_map
      hidden inputs0).preds.length = MAX_DECODE := by
    unfold decodeLoop
    rw [foldl_decodeStep_length]
    simp
  refine ⟨rfl,
    fun st => decodeStep_preds_length env model vocab nodes mask copy_mask
      src2trg_map st, hlen, ?_⟩
  rw [List.all_eq_true]
  intro row hrow
  have hr := catDim1_mem_length _ row hrow
  simp [hr, hlen]

/-- C4 counterexample: starting from cached datasets and an empty registry,
one successful checkpoint load followed by a failing one leaves a state in
which three supported architectures' checkpoints (for example `TreeLSTM`'s)
are still pending, yet `is_ready` already returns `true`. -/
theorem is_ready_true_with_pending_loads :
    is_ready (setup_checkpoints envU stInit).1 = true ∧
    (setup_checkpoints envU stInit).1.checkpoint_dict.length = 1 ∧
    dictLookup (setup_checkpoints envU stInit).1.checkpoint_dict ("TreeLSTM")
      = none ∧
    ("TreeLSTM") ∈ SUPPORTED_MODELS := by
  decide

/-- C4 as amended: `is_ready` is true exactly when the checkpoint registry is
non-empty — not necessarily complete — and both canonical training datasets
exist. -/
theorem is_ready_iff_nonempty_and_datasets :
    ∀ {α : Type} (st : GState α),
      is_ready st = true ↔
        (st.checkpoint_dict ≠ [] ∧ st.train_seq_dataset ≠ none ∧
          st.train_tree_dataset ≠ none) := by
  intro α st
  simp [is_ready, Bool.and_eq_true, decide_eq_true_iff,
    Option.isSome_iff_ne_none, List.length_eq_zero, and_assoc]

/-- Witness for the amended C4 statement at a concrete ready state. -/
theorem is_ready_iff_nonempty_and_datasets_witness : is_ready stC = true :=
  (is_ready_iff_nonempty_and_datasets stC).mpr
    ⟨by decide, by decide, by decide⟩

/-- C7: `build_model` fails on an absent hyperparameter record, an absent
vocabulary, or an unsupported tag, and for each supported tag constructs
exactly the one model shape whose constructor arguments mirror the source. -/
theorem build_model_dispatch :
    (∀ v : Option Vocab, build_model none v = none) ∧
    (∀ a : Option Args, build_model a none = none) ∧
    (∀ (a : Args) (v : Vocab), a.model ∉ SUPPORTED_MODELS →
      build_model (some a) (some v) = none) ∧
    (∀ (a : Args) (v : Vocab), a.model = "BiLSTM" →
      build_model (some a) (some v) = some (Model.biLSTM a.down_embed_dim
        v.size a.hid_size v.pad_idx a.dropout a.max_oov_num a.copy)) ∧
    (∀ (a : Args) (v : Vocab), a.model = "Relative-Transformer" →
      build_model (some a) (some v) = some (Model.relativeTransformer
        a.down_embed_dim v.size a.down_d_model a.down_d_ff a.down_head_num
        a.down_layer_num a.hid_size a.dropout v.pad_idx a.down_max_dist
        a.max_oov_num a.copy a.rel_share a.k_v_share)) ∧
    (∀ (a : Args) (v : Vocab), a.model = "Transformer" →
      build_model (some a) (some v) = some (Model.absoluteTransformer
        a.down_embed_dim v.size a.down_d_model a.down_d_ff a.down_head_num
        a.down_layer_num a.hid_size a.dropout v.pad_idx a.max_oov_num a.copy
        a.absolute_pos)) ∧
    (∀ (a : Args) (v : Vocab), a.model = "TreeLSTM" →
      build_model (some a) (some v) = some (Model.treeLSTM a.down_embed_dim
        v.size TYPE_NUM a.hid_size a.dropout v.pad_idx a.max_oov_num
        a.copy)) ∧
    (∀ (a : Args) (v : Vocab) (m : Model),
      build_model (some a) (some v) = some m → modelTag m = a.model) := by
  refine ⟨fun v => ?_, fun a => ?_, fun a v h => ?_, fun a v h => ?_,
    fun a v h => ?_, fun a v h => ?_, fun a v h => ?_, fun a v m h => ?_⟩
  · cases v <;> rfl
  · cases a <;> rfl
  · simp only [SUPPORTED_MODELS, List.mem_cons, List.not_mem_nil, or_false,
      not_or] at h
    obtain ⟨h1, h2, h3, h4⟩ := h
    simp [build_model, h1, h2, h3, h4]
  · simp [build_model, h]
  · simp [build_model, h]
  · simp [build_model, h]
  · simp [build_model, h]
  · simp only [build_model] at h
    split_ifs at h with h1 h2 h3 h4 <;>
      simp only [Option.some.injEq] at h <;> try subst h
    · simp [modelTag, h1]
    · simp [modelTag, h2]
    · simp [modelTag, h3]
    · simp [modelTag, h4]

/-- Witness for C7 at concrete hyperparameters and vocabulary. -/
theorem build_model_dispatch_witness :
    build_model none (some vocabC) = none ∧
    build_model (some argsC) none = none ∧
    build_model (some argsBadTag) (some vocabC) = none ∧
    build_model (some argsC) (some vocabC)
      = some (Model.biLSTM 3 5 4 0 0 9 true) ∧
    modelTag (Model.biLSTM 3 5 4 0 0 9 true) = "BiLSTM" :=
  ⟨build_model_dispatch.1 (some vocabC),
   build_model_dispatch.2.1 (some argsC),
   build_model_dispatch.2.2.1 argsBadTag vocabC (by decide),
   build_model_dispatch.2.2.2.1 argsC vocabC rfl,
   build_model_dispatch.2.2.2.2.2.2.2 argsC vocabC
     (Model.biLSTM 3 5 4 0 0 9 true) (by decide)⟩

/-- Every non-raising exit of the `try` body leaves `modelName`, `original`
and `hasScore` untouched, and either set `success := true` or kept the
caller's `success` while writing a non-empty failure message. -/
theorem run_inner_ok_props {α : Type} (env : Env α) (st : GState α)
    (m p : String) (r r' : EvaluationResult)
    (h : run_sql2text_inner env st m p r = Except.ok r') :
    r'.modelName = r.modelName ∧ r'.original = r.original ∧
      r'.hasScore = r.hasScore ∧
      (r'.success = true ∨ (r'.success = r.success ∧ r'.failedReason ≠ "")) := by
  unfold run_sql2text_inner at h
  repeat' split at h
  all_goals cases h
  all_goals refine ⟨rfl, rfl, rfl, ?_⟩
  all_goals
    first
      | exact Or.inl rfl
      | refine Or.inr ⟨rfl, ?_⟩
  all_goals
    first
      | exact str_left_append_ne_empty _ _
          (str_left_append_ne_empty _ _ (by decide))
      | simp

/-- `run_sql2text` never changes `modelName`, `original` or `hasScore`. -/
theorem run_frame {α : Type} (env : Env α) (st : GState α) (m p : String)
    (r : EvaluationResult) :
    (run_sql2text env st m p r).modelName = r.modelName ∧
      (run_sql2text env st m p r).original = r.original ∧
      (run_sql2text env st m p r).hasScore = r.hasScore := by
  cases h : run_sql2text_inner env st m p r with
  | ok r' =>
    have hp := run_inner_ok_props env st m p r r' h
    simp only [run_sql2text, h]
    exact ⟨hp.1, hp.2.1, hp.2.2.1⟩
  | error e => simp [run_sql2text, h]

/-- A `run_sql2text` call ends in success, or with a non-empty explicit
failure message, or with `failedReason` equal to the caught exception's
text. -/
theorem run_sql2text_success_or_reason {α : Type} (env : Env α)
    (st : GState α) (m p : String) (r : EvaluationResult) :
    (run_sql2text env st m p r).success = true ∨
      ((run_sql2text env st m p r).success = r.success ∧
        ((run_sql2text env st m p r).failedReason ≠ "" ∨
          ∃ e : PyErr, run_sql2text_inner env st m p r = Except.error e ∧
            (run_sql2text env st m p r).failedReason = e.msg)) := by
  cases h : run_sql2text_inner env st m p r with
  | ok r' =>
    simp only [run_sql2text, h]
    rcases (run_inner_ok_props env st m p r r' h).2.2.2 with h1 | ⟨hs, hr⟩
    · exact Or.inl h1
    · exact Or.inr ⟨hs, Or.inl hr⟩
  | error e =>
    exact Or.inr ⟨by simp [run_sql2text, h],
      Or.inr ⟨e, rfl, by simp [run_sql2text, h]⟩⟩

/-- `predict` on an unsupported tag short-circuits to the tag-error result. -/
theorem predict_eq_unsupported {α : Type} (env : Env α) (st : GState α)
    (m db : String) (gold : Option String) (sql idf : String)
    (hm : m ∉ SUPPORTED_MODELS) :
    predict env st m db gold sql idf
      = { entryResult m gold sql with
          failedReason :=
            "model '" ++ m ++ "' is not in supported models " ++
              pyReprStrList SUPPORTED_MODELS ++ "!" } := by
  simp [predict, hm]

/-- `predict` on a supported tag whose materialization returns an empty path
short-circuits to the build-json-error result. -/
theorem predict_eq_emptypath {α : Type} (env : Env α) (st : GState α)
    (m db : String) (gold : Option String) (sql idf : String)
    (hm : m ∈ SUPPORTED_MODELS)
    (hp : env.build_input_sql_json db gold sql (idf ++ "@" ++ m) = "") :
    predict env st m db gold sql idf
      = { entryResult m gold sql with
          failedReason :=
            "build json file for model '" ++ m ++ "' input_sql '" ++ sql ++
              "' failed!" } := by
  simp [predict, hm, hp]

/-- `predict` on a supported tag with a materialized path delegates to
`run_sql2text`. -/
theorem predict_eq_run {α : Type} (env : Env α) (st : GState α)
    (m db : String) (gold : Option String) (sql idf : String)
    (hm : m ∈ SUPPORTED_MODELS)
    (hp : env.build_input_sql_json db gold sql (idf ++ "@" ++ m) ≠ "") :
    predict env st m db gold sql idf
      = run_sql2text env st m
          (env.build_input_sql_json db gold sql (idf ++ "@" ++ m))
          (entryResult m gold sql) := by
  simp [predict, hm, hp]

/-- A seq dataset constructed with an explicitly supplied vocabulary stores
exactly that vocabulary object. -/
theorem SeqDataset_make_vocab {α : Type} (env : Env α) (files : List String)
    (tp : String) (v : Vocab) (d : Dataset α)
    (h : SeqDataset.make env files tp (some v) = Except.ok d) : d.vocab = v := by
  unfold SeqDataset.make at h
  split at h
  · cases h
  · cases h
    rfl

/-- A tree dataset constructed with an explicitly supplied vocabulary stores
exactly that vocabulary object. -/
theorem TreeDataset_make_vocab {α : Type} (env : Env α) (files : List String)
    (tp : String) (v : Vocab) (d : Dataset α)
    (h : TreeDataset.make env files tp (some v) = Except.ok d) : d.vocab = v := by
  unfold TreeDataset.make at h
  split at h
  · cases h
  · cases h
    rfl

/-- C5: `build_dataset` binds into every evaluation dataset exactly the
Vocabulary object of the cached training dataset of the same architecture
family (seq families share `train_seq_dataset.vocab`, `TreeLSTM` shares
`train_tree_dataset.vocab`); equality here includes the instance identity
tag `objId`. -/
theorem eval_dataset_vocab_identity :
    ∀ {α : Type} (env : Env α) (st : GState α) (m path : String)
      (dsTrain ds : Dataset α),
      ((m ∈ ["Relative-Transformer", "Transformer", "BiLSTM"] →
        st.train_seq_dataset = some dsTrain →
        build_dataset env st m path = Except.ok (some ds) →
        ds.vocab = dsTrain.vocab) ∧
       (st.train_tree_dataset = some dsTrain →
        build_dataset env st ("TreeLSTM") path = Except.ok (some ds) →
        ds.vocab = dsTrain.vocab)) := by
  intro α env st m path dsTrain ds
  constructor
  · intro hm htr hb
    unfold build_dataset at hb
    rw [if_pos hm] at hb
    unfold get_train_dataset at hb
    rw [if_pos hm, htr] at hb
    simp only [vocabAttr] at hb
    split at hb
    · cases hb
    · rename_i t heq
      cases hb
      exact SeqDataset_make_vocab env [path] TRAIN_TABLE_FILE_PATH
        dsTrain.vocab _ heq
  · intro htr hb
    unfold build_dataset at hb
    rw [if_neg (by decide), if_pos rfl] at hb
    unfold get_train_dataset at hb
    rw [if_neg (by decide), if_pos rfl, htr] at hb
    simp only [vocabAttr] at hb
    split at hb
    · cases hb
    · rename_i t heq
      cases hb
      exact TreeDataset_make_vocab env [path] TRAIN_TABLE_FILE_PATH
        dsTrain.vocab _ heq

/-- Witness for C5: the concrete evaluation dataset built for `BiLSTM`
carries the very vocabulary instance of the cached seq training dataset. -/
theorem eval_dataset_vocab_identity_witness :
    dsEvalC.vocab = dsTrainC.vocab :=
  (eval_dataset_vocab_identity envU stC ("BiLSTM") ("p.json") dsTrainC
    dsEvalC).1 (by decide) rfl rfl

/-- C10: when `build_model` yields `None`, the failure reason produced by
`run_sql2text` is the literal `"build model for None failed"`, because the
local that held the architecture tag has been overwritten by the `None`
returned from `build_model`. -/
theorem build_model_failure_reason_names_None :
    ∀ {α : Type} (env : Env α) (st : GState α) (m path : String)
      (r : EvaluationResult) (ck : Checkpoint α) (ds : Dataset α),
      dictLookup st.checkpoint_dict m = some ck →
      build_dataset env st m path = Except.ok (some ds) →
      build_model (some (patchArgs ck.args)) (some ds.vocab) = none →
      (run_sql2text env st m path r).failedReason
        = "build model for None failed" := by
  intro α env st m path r ck ds hck hbd hbm
  simp [run_sql2text, run_sql2text_inner, hck, hbd, hbm]

/-- Witness for C10: a checkpoint whose stored hyperparameters carry the
unsupported tag `"LSTM2"` drives `build_model` to `None`, and the recorded
reason names `None`, not the requested `BiLSTM`. -/
theorem build_model_failure_reason_names_None_witness :
    (run_sql2text envU stBadTag ("BiLSTM") ("p.json")
      (entryResult ("BiLSTM") none ("q"))).failedReason
      = "build model for None failed" :=
  build_model_failure_reason_names_None envU stBadTag ("BiLSTM") ("p.json")
    (entryResult ("BiLSTM") none ("q")) ckBadTag dsEvalC (by decide)
    rfl (by decide)

/-- C2 counterexample: a pipeline fault whose exception carries an empty
message (as `raise RuntimeError()` would) yields `success = false` but an
EMPTY `failedReason`, refuting the claim's "non-empty failedReason". -/
theorem predict_empty_failedReason_counterexample :
    (predict envEmptyErr stC ("BiLSTM") ("db") none ("q") ("id")).success
        = false ∧
    (predict envEmptyErr stC ("BiLSTM") ("db") none ("q") ("id")).failedReason
        = "" := by
  decide

/-- C2 as amended: `predict` always returns a result (the embedding of the
`try`/`except` boundary is a total function); on every non-success outcome
the `failedReason` is a non-empty descriptive message, except that a fault
caught by the handler is reported verbatim as the fault's own message, which
may be empty. -/
theorem predict_converts_pipeline_faults :
    ∀ {α : Type} (env : Env α) (st : GState α) (m db : String)
      (gold : Option String) (sql idf : String),
      (predict env st m db gold sql idf).success = false →
        (predict env st m db gold sql idf).failedReason ≠ "" ∨
        ∃ e : PyErr,
          (predict env st m db gold sql idf).failedReason = e.msg ∧
          run_sql2text_inner env st m
            (env.build_input_sql_json db gold sql (idf ++ "@" ++ m))
            (entryResult m gold sql) = Except.error e := by
  intro α env st m db gold sql idf hsucc
  by_cases hm : m ∈ SUPPORTED_MODELS
  · by_cases hp : env.build_input_sql_json db gold sql (idf ++ "@" ++ m) = ""
    · left
      rw [predict_eq_emptypath env st m db gold sql idf hm hp]
      exact str_left_append_ne_empty _ _ (str_left_append_ne_empty _ _
        (str_left_append_ne_empty _ _ (str_left_append_ne_empty _ _
          (by decide))))
    · rw [predict_eq_run env st m db gold sql idf hm hp] at hsucc ⊢
      rcases run_sql2text_success_or_reason env st m
          (env.build_input_sql_json db gold sql (idf ++ "@" ++ m))
          (entryResult m gold sql) with h1 | ⟨-, h2⟩
      · rw [h1] at hsucc; cases hsucc
      · rcases h2 with h2 | ⟨e, hinner, hre⟩
        · exact Or.inl h2
        · exact Or.inr ⟨e, hre, hinner⟩
  · left
    rw [predict_eq_unsupported env st m db gold sql idf hm]
    exact str_left_append_ne_empty _ _ (str_left_append_ne_empty _ _
      (str_left_append_ne_empty _ _ (str_left_append_ne_empty _ _
        (by decide))))

/-- Witness for the amended C2 at a concrete failing request. -/
theorem predict_converts_pipeline_faults_witness :
    (predict envU stC ("LSTM2") ("db") none ("q") ("id")).success = false ∧
    ((predict envU stC ("LSTM2") ("db") none ("q") ("id")).failedReason ≠ "" ∨
      ∃ e : PyErr,
        (predict envU stC ("LSTM2") ("db") none ("q") ("id")).failedReason
          = e.msg ∧
        run_sql2text_inner envU stC ("LSTM2")
          (envU.build_input_sql_json ("db") none ("q")
            (("id") ++ "@" ++ ("LSTM2")))
          (entryResult ("LSTM2") none ("q")) = Except.error e) :=
  ⟨by decide,
   predict_converts_pipeline_faults envU stC ("LSTM2") ("db") none ("q")
     ("id") (by decide)⟩

/-- C6: an unsupported tag yields `success = false` and a `failedReason`
containing the offending tag, the rendered `SUPPORTED_MODELS` list, and each
of the four supported model names (the list renders in Python `str()` form,
with single quotes). -/
theorem predict_unsupported_tag_message :
    ∀ {α : Type} (env : Env α) (st : GState α) (m db : String)
      (gold : Option String) (sql idf : String),
      m ∉ SUPPORTED_MODELS →
      ((predict env st m db gold sql idf).success = false ∧
       strOccurs m ((predict env st m db gold sql idf).failedReason) ∧
       strOccurs (pyReprStrList SUPPORTED_MODELS)
         ((predict env st m db gold sql idf).failedReason) ∧
       (∀ s ∈ SUPPORTED_MODELS,
         strOccurs s ((predict env st m db gold sql idf).failedReason))) := by
  intro α env st m db gold sql idf hm
  rw [predict_eq_unsupported env st m db gold sql idf hm]
  have hL : strOccurs (pyReprStrList SUPPORTED_MODELS)
      ("model '" ++ m ++ "' is not in supported models " ++
        pyReprStrList SUPPORTED_MODELS ++ "!") :=
    ⟨"model '" ++ m ++ "' is not in supported models ", "!", rfl⟩
  refine ⟨rfl, ⟨"model '",
    "' is not in supported models " ++ pyReprStrList SUPPORTED_MODELS ++ "!",
    by simp [String.append_assoc]⟩, hL, ?_⟩
  intro s hs
  simp only [SUPPORTED_MODELS, List.mem_cons, List.not_mem_nil, or_false]
    at hs
  rcases hs with rfl | rfl | rfl | rfl
  · exact strOccurs_trans _ _ _
      ⟨"['", "', 'Relative-Transformer', 'Transformer', 'TreeLSTM']",
        by decide⟩ hL
  · exact strOccurs_trans _ _ _
      ⟨"['BiLSTM', '", "', 'Transformer', 'TreeLSTM']", by decide⟩ hL
  · exact strOccurs_trans _ _ _
      ⟨"['BiLSTM', 'Relative-Transformer', '", "', 'TreeLSTM']", by decide⟩ hL
  · exact strOccurs_trans _ _ _
      ⟨"['BiLSTM', 'Relative-Transformer', 'Transformer', '", "']",
        by decide⟩ hL

/-- Witness for C6 at the tag `"LSTM2"` of the claim's example. -/
theorem predict_unsupported_tag_message_witness :
    ("LSTM2") ∉ SUPPORTED_MODELS ∧
    ((predict envU stC ("LSTM2") ("db") none ("q") ("id")).success = false ∧
     strOccurs ("LSTM2")
       ((predict envU stC ("LSTM2") ("db") none ("q") ("id")).failedReason) ∧
     strOccurs (pyReprStrList SUPPORTED_MODELS)
       ((predict envU stC ("LSTM2") ("db") none ("q") ("id")).failedReason) ∧
     (∀ s ∈ SUPPORTED_MODELS,
       strOccurs s
         ((predict envU stC ("LSTM2") ("db") none ("q") ("id")).failedReason))) :=
  ⟨by decide,
   predict_unsupported_tag_message envU stC ("LSTM2") ("db") none ("q") ("id")
     (by decide)⟩

/-- C8: `hasScore` is true exactly when the gold text is present and not the
empty string, on every path `predict` can take. -/
theorem predict_hasScore_iff_gold :
    ∀ {α : Type} (env : Env α) (st : GState α) (m db : String)
      (gold : Option String) (sql idf : String),
      ((predict env st m db gold sql idf).hasScore = true ↔
        (gold ≠ none ∧ gold ≠ some (""))) := by
  intro α env st m db gold sql idf
  have hbase : (entryResult m gold sql).hasScore = true ↔
      (gold ≠ none ∧ gold ≠ some ("")) := by
    simp [entryResult]
  by_cases hm : m ∈ SUPPORTED_MODELS
  · by_cases hp : env.build_input_sql_json db gold sql (idf ++ "@" ++ m) = ""
    · rw [predict_eq_emptypath env st m db gold sql idf hm hp]
      exact hbase
    · rw [predict_eq_run env st m db gold sql idf hm hp]
      rw [(run_frame env st m
        (env.build_input_sql_json db gold sql (idf ++ "@" ++ m))
        (entryResult m gold sql)).2.2]
      exact hbase
  · rw [predict_eq_unsupported env st m db gold sql idf hm]
    exact hbase

/-- Witness for C8: present non-empty gold text sets `hasScore`. -/
theorem predict_hasScore_iff_gold_witness :
    (predict envU stC ("BiLSTM") ("db") (some ("gold text")) ("q")
      ("id")).hasScore = true :=
  (predict_hasScore_iff_gold envU stC ("BiLSTM") ("db") (some ("gold text"))
    ("q") ("id")).mpr ⟨by decide, by decide⟩

/-- C9: on every path — unsupported tag, materialization failure, any
pipeline failure, or success — the result carries `modelName` equal to the
architecture argument and `original` equal to the source query text. -/
theorem predict_preserves_identity_fields :
    ∀ {α : Type} (env : Env α) (st : GState α) (m db : String)
      (gold : Option String) (sql idf : String),
      (predict env st m db gold sql idf).modelName = m ∧
      (predict env st m db gold sql idf).original = sql := by
  intro α env st m db gold sql idf
  by_cases hm : m ∈ SUPPORTED_MODELS
  · by_cases hp : env.build_input_sql_json db gold sql (idf ++ "@" ++ m) = ""
    · rw [predict_eq_emptypath env st m db gold sql idf hm hp]
      exact ⟨rfl, rfl⟩
    · rw [predict_eq_run env st m db gold sql idf hm hp]
      have hf := run_frame env st m
        (env.build_input_sql_json db gold sql (idf ++ "@" ++ m))
        (entryResult m gold sql)
      exact ⟨hf.1.trans rfl, hf.2.1.trans rfl⟩
  · rw [predict_eq_unsupported env st m db gold sql idf hm]
    exact ⟨rfl, rfl⟩
